import Mathlib

/-!
# Verification of `logextractor.py`

A shallow embedding of the log-message extraction pipeline of
`logextractor.py`: the macro-call argument segmenter (`get_macro_args`),
the literal extractor and format handling inside `process_log`, the
LogMessage builder, and the pruning AST traversal (`parse_file.visit_node`).

Modelling conventions:
* Python strings are Lean `String`s; character-level operations
  (`startswith`, slicing `[1:-1]`, `len`) are modelled through `String.data`
  (a `List Char`), which agrees with Python's per-character semantics.
* A clang `Token` is modelled by the only attribute the program reads from
  it, its `spelling`.
* A clang `Cursor` (AST node) is modelled by the attributes the program
  reads: `kind` (as a string), `spelling`, its token stream, its source
  location, and its children.
* Python code that can raise is modelled with `Except PyErr`; the
  exceptions that the modelled code paths can actually raise are
  `AssertionError` (failed `assert`), `IndexError` (list subscript out of
  range), `AttributeError` (attribute access on `None`) and `ValueError`
  (`Path.relative_to` on a non-descendant path).
* `scanf_compile` comes from the external `scanf` package (not part of this
  repository); it is modelled from the spec, see `scanf_compile` below.
-/

/-- A lexical token of one call site.  The program reads only the
`spelling` attribute of clang tokens, so the model carries only that. -/
structure Token where
  spelling : String
deriving DecidableEq, Repr

/-- A source location as read from `node.location`: optional file name,
line and column. -/
structure SourceLoc where
  file : Option String
  line : Nat
  column : Nat
deriving DecidableEq, Repr

/-- An AST node (clang `Cursor`) with the attributes the program reads:
`kind` (modelled as a string, compared against "MACRO_INSTANTIATION"),
`spelling`, the node's token stream, its location and its children. -/
inductive CNode where
  | mk (kind : String) (spelling : String) (toks : List Token)
       (loc : SourceLoc) (children : List CNode)
deriving Repr

def CNode.kind : CNode → String
  | .mk k _ _ _ _ => k

def CNode.spelling : CNode → String
  | .mk _ s _ _ _ => s

def CNode.toks : CNode → List Token
  | .mk _ _ t _ _ => t

def CNode.loc : CNode → SourceLoc
  | .mk _ _ _ l _ => l

def CNode.children : CNode → List CNode
  | .mk _ _ _ _ c => c

/-- Exceptions raisable by the modelled code paths. -/
inductive PyErr where
  | assertionError
  | indexError
  | attributeError
  | valueError
deriving DecidableEq, Repr

/-- The closed enumeration of inferred format-placeholder kinds
(spec section 3, FieldKind). -/
inductive FieldKind where
  | integer
  | float
  | string
  | character
  | unknown
deriving DecidableEq, Repr

/-- `LOG_FUNCS`: the recognized log-call identifiers
(`logextractor.py` lines 17-22). -/
def LOG_FUNCS : List String :=
  ["LogDebug", "LogTrace",
   "LogPrintf", "LogPrint",
   "LogInfo", "LogError", "LogWarning",
   "LogPrintFormatInternal"]

/-- The immutable `LogMessage` record (`logextractor.py` lines 24-33).
The Python field `macro` is a Lean keyword, so it is named `macroName`
here. -/
structure LogMessage where
  fmt : String
  regex : String
  regex_types : List String
  file : Option String
  line : Nat
  column : Nat
  macroName : String
  category : Option String := none
deriving DecidableEq, Repr

/-- Python `s.startswith(pre)` : is `pre` a leading substring of `s`
(character-level). -/
def pyStartswith (s pre : String) : Bool :=
  pre.data.isPrefixOf s.data

/-- Python `s.endswith('"')` specialised to the double-quote character. -/
def endswithQuote (s : String) : Bool :=
  s.data.getLast? == some '"'

/-- Python `s.startswith('"')` specialised to the double-quote character. -/
def startswithQuote (s : String) : Bool :=
  s.data.head? == some '"'

/-- Python `s[1:-1]`: the string without its first and last characters. -/
def pyStrip1m1 (s : String) : String :=
  ⟨(s.data.drop 1).dropLast⟩

/-- `arg_str` (`logextractor.py` lines 45-46): concatenation of the
spellings of an argument's tokens (Python `"".join`). -/
def arg_str (arg : List Token) : String :=
  (arg.map Token.spelling).foldl (· ++ ·) ""

/-- Regex-escape one character, for the modelled `scanf_compile`. -/
def regexEscapeChar (c : Char) : String :=
  if c ∈ ['.', '^', '$', '*', '+', '?', '(', ')', '[', ']', '\\', '|']
  then "\\".push c else String.singleton c

/-- Map a conversion-specifier character to its placeholder pattern and
field kind, for the modelled `scanf_compile`. -/
def specifierOf (c : Char) : String × FieldKind :=
  if c ∈ ['d', 'i', 'u', 'x', 'o'] then ("([+-]?\\d+)", .integer)
  else if c ∈ ['f', 'e', 'g'] then ("([+-]?\\d+\\.?\\d*)", .float)
  else if c = 's' then ("(\\S+)", .string)
  else if c = 'c' then ("(.)", .character)
  else ("(.*)", .unknown)

/-- Worker loop of the modelled `scanf_compile`. -/
def scanfGo : List Char → String → List FieldKind → String × List FieldKind
  | [], pat, kinds => (pat, kinds)
  | '%' :: c :: rest, pat, kinds =>
      if c = '%' then scanfGo rest (pat ++ "%") kinds
      else scanfGo rest (pat ++ (specifierOf c).1) (kinds ++ [(specifierOf c).2])
  | ['%'], pat, kinds => (pat ++ "%", kinds)
  | c :: rest, pat, kinds => scanfGo rest (pat ++ regexEscapeChar c) kinds

/-- Modelled from the spec: `scanf_compile` of the external `scanf`
package (imported at `logextractor.py` line 12; its code is not part of
this repository).  Per spec section 4.4 it maps each conversion specifier,
in left-to-right order, deterministically to one placeholder and one
FieldKind; literal text is reproduced escaped; whitespace is preserved
(`collapseWhitespace=False`); unrecognized specifiers become
`FieldKind.unknown` rather than failing.  It is a pure total function of
the format string. -/
def scanf_compile (fmt : String) : String × List FieldKind :=
  scanfGo fmt.data "" []

/-- Python type names of the inferred field kinds
(the `getattr(t, '__name__', str(t))` mapping at line 133). -/
def kindName : FieldKind → String
  | .integer => "int"
  | .float => "float"
  | .string => "str"
  | .character => "char"
  | .unknown => "unknown"

/-- `fmt_to_regex` (`logextractor.py` lines 36-43): wrapper around
`scanf_compile` with `collapseWhitespace=False`. -/
def fmt_to_regex (fmt_str : String) : String × List FieldKind :=
  scanf_compile fmt_str

/-- The token loop of `get_macro_args` (`logextractor.py` lines 60-83),
started at index 2 of the token stream with empty `args`, empty
`current_arg` and `paren_depth = 0`.  Reaching the end of the stream
without a depth-zero close parenthesis models the fall-through
`return []` at line 83. -/
def segLoop : List Token → List (List Token) → List Token → Nat →
    List (List Token)
  | [], _, _, _ => []
  | tok :: rest, args, cur, depth =>
    if tok.spelling = "(" then
      segLoop rest args cur (depth + 1)
    else if tok.spelling = ")" then
      if depth = 0 then args ++ [cur]
      else segLoop rest args (cur ++ [tok]) (depth - 1)
    else if tok.spelling = "," ∧ depth = 0 then
      segLoop rest (args ++ [cur]) [] depth
    else
      segLoop rest args (cur ++ [tok]) depth

/-- `get_macro_args` (`logextractor.py` lines 52-83).  `none` models an
`AssertionError` from the three `assert` statements (empty token stream;
token 0 differing from the macro name; token 1 not `(`). -/
def get_macro_args (macroName : String) (toks : List Token) :
    Option (List (List Token)) :=
  match toks with
  | [] => none
  | t0 :: rest =>
    if t0.spelling ≠ macroName then none
    else
      match rest with
      | [] => some []
      | t1 :: rest2 =>
        if t1.spelling ≠ "(" then none
        else some (segLoop rest2 [] [] 0)

/-- The string test and strip at `logextractor.py` lines 123-124: if the
reconstructed argument text starts and ends with a double quote, strip
those two characters; otherwise the text is kept as is (the `else` branch
only prints a diagnostic and falls through). -/
def extract_literal (s : String) : String :=
  if startswithQuote s && endswithQuote s then pyStrip1m1 s else s

/-- Modelled from the spec / Python standard library:
`Path(p).relative_to(root)` at `logextractor.py` line 136, on
character-level paths: removing the leading `root ++ "/"`; `none` models
the `ValueError` raised when `p` does not lie under `root`. -/
def relative_to (p root : String) : Option String :=
  if pyStartswith p (root ++ "/") then some ⟨p.data.drop (root.data.length + 1)⟩
  else if p = root then some "."
  else none

/-- `process_log` (`logextractor.py` lines 110-147). Faithful to the
Python control flow, including the code paths that raise:
* `args[0]` / `args[idx]` on a too-short argument list raises `IndexError`;
* `loc.file.name` raises `AttributeError` when `loc.file` is `None`;
* `relative_to` raises `ValueError` when the file is not under `root_dir`;
* a non-literal format argument only prints a diagnostic and falls
  through, so the raw reconstructed text becomes `fmt`. -/
def process_log (node : CNode) (root_dir : String) : Except PyErr LogMessage :=
  match get_macro_args node.spelling node.toks with
  | none => .error .assertionError
  | some args =>
    let isCat := node.spelling = "LogDebug" ∨ node.spelling = "LogTrace"
    let idx := if isCat then 1 else 0
    let categoryRes : Except PyErr (Option String) :=
      if isCat then
        match args[0]? with
        | none => .error .indexError
        | some a => .ok (some (arg_str a))
      else .ok none
    match categoryRes with
    | .error e => .error e
    | .ok category =>
      match args[idx]? with
      | none => .error .indexError
      | some fmtArg =>
        let fmt_str := extract_literal (arg_str fmtArg)
        let compiled := fmt_to_regex fmt_str
        match node.loc.file with
        | none => .error .attributeError
        | some fname =>
          match relative_to fname root_dir with
          | none => .error .valueError
          | some rel =>
            .ok { fmt := fmt_str
                  regex := compiled.1
                  regex_types := compiled.2.map kindName
                  file := some rel
                  line := node.loc.line
                  column := node.loc.column
                  macroName := node.spelling
                  category := category }

mutual

/-- `visit_node` inside `parse_file` (`logextractor.py` lines 157-170):
prune nodes whose file does not start with `root_dir`; collect a
LogMessage for macro instantiations named in `LOG_FUNCS`; recurse into
children.  An exception from `process_log` propagates (aborting the whole
traversal), exactly as an uncaught Python exception would. -/
def visit_node : CNode → String → Except PyErr (List LogMessage)
  | .mk kind spelling toks loc children, root_dir =>
    let pruned : Bool :=
      match loc.file with
      | some fname => ! pyStartswith fname root_dir
      | none => false
    if pruned then .ok []
    else
      let selfRes : Except PyErr (List LogMessage) :=
        if kind = "MACRO_INSTANTIATION" ∧ spelling ∈ LOG_FUNCS then
          match process_log (.mk kind spelling toks loc children) root_dir with
          | .error e => .error e
          | .ok m => .ok [m]
        else .ok []
      match selfRes with
      | .error e => .error e
      | .ok ms =>
        match visit_children children root_dir with
        | .error e => .error e
        | .ok rest => .ok (ms ++ rest)

/-- The `for child in node.get_children()` loop of `visit_node`. -/
def visit_children : List CNode → String → Except PyErr (List LogMessage)
  | [], _ => .ok []
  | c :: rest, root_dir =>
    match visit_node c root_dir with
    | .error e => .error e
    | .ok ms =>
      match visit_children rest root_dir with
      | .error e => .error e
      | .ok more => .ok (ms ++ more)

end

/-- Statement-side predicate used to say "the token loop eventually reaches
a close-grouping delimiter at depth zero": it tracks the nesting depth
exactly as the loop of `get_macro_args` does. -/
def closesCall : List Token → Nat → Bool
  | [], _ => false
  | tok :: rest, depth =>
    if tok.spelling = "(" then closesCall rest (depth + 1)
    else if tok.spelling = ")" then
      (if depth = 0 then true else closesCall rest (depth - 1))
    else closesCall rest depth

/-- A call site whose format argument is the bare identifier `foo`
(not a string literal), located under the project root. -/
def nodeNonLiteral : CNode :=
  .mk "MACRO_INSTANTIATION" "LogPrintf"
    [⟨"LogPrintf"⟩, ⟨"("⟩, ⟨"foo"⟩, ⟨")"⟩]
    ⟨some "/root/proj/src/a.cpp", 10, 5⟩ []

/-- The LogMessage the program builds for `nodeNonLiteral`. -/
def msgNonLiteral : LogMessage :=
  { fmt := "foo", regex := "foo", regex_types := [],
    file := some "src/a.cpp", line := 10, column := 5,
    macroName := "LogPrintf", category := none }

/-- A call site whose token stream never reaches a close parenthesis at
depth zero (truncated call). -/
def nodeMalformed : CNode :=
  .mk "MACRO_INSTANTIATION" "LogPrintf"
    [⟨"LogPrintf"⟩, ⟨"("⟩, ⟨"\"x\""⟩]
    ⟨some "/root/proj/src/a.cpp", 3, 1⟩ []

/-- A recognized call site whose source location has no resolvable file
(`node.location.file` is `None`). -/
def nodeNoFile : CNode :=
  .mk "MACRO_INSTANTIATION" "LogPrintf"
    [⟨"LogPrintf"⟩, ⟨"("⟩, ⟨"\"hi\""⟩, ⟨")"⟩]
    ⟨none, 3, 1⟩ []

/-- The same call site as `nodeNoFile` but with a resolvable file under
the project root. -/
def nodeWithFile : CNode :=
  .mk "MACRO_INSTANTIATION" "LogPrintf"
    [⟨"LogPrintf"⟩, ⟨"("⟩, ⟨"\"hi\""⟩, ⟨")"⟩]
    ⟨some "/root/proj/src/a.cpp", 3, 1⟩ []

/-- The LogMessage the program builds for `nodeWithFile`. -/
def msgWithFile : LogMessage :=
  { fmt := "hi", regex := "hi", regex_types := [],
    file := some "src/a.cpp", line := 3, column := 1,
    macroName := "LogPrintf", category := none }

/-- A category-bearing call site: `LogDebug(NET, "x")`. -/
def nodeLogDebug : CNode :=
  .mk "MACRO_INSTANTIATION" "LogDebug"
    [⟨"LogDebug"⟩, ⟨"("⟩, ⟨"NET"⟩, ⟨","⟩, ⟨"\"x\""⟩, ⟨")"⟩]
    ⟨some "/root/proj/src/net.cpp", 7, 9⟩ []

/-- The argument groups of `nodeLogDebug`. -/
def argsLogDebug : List (List Token) :=
  [[⟨"NET"⟩], [⟨"\"x\""⟩]]

/-- The LogMessage the program builds for `nodeLogDebug`. -/
def msgLogDebug : LogMessage :=
  { fmt := "x", regex := "x", regex_types := [],
    file := some "src/net.cpp", line := 7, column := 9,
    macroName := "LogDebug", category := some "NET" }

/-- A recognized-looking call site located outside the project root
(a system header). -/
def nodeOutsideRoot : CNode :=
  .mk "MACRO_INSTANTIATION" "LogPrintf"
    [⟨"LogPrintf"⟩, ⟨"("⟩, ⟨"\"x\""⟩, ⟨")"⟩]
    ⟨some "/usr/include/sys.h", 1, 1⟩ []

/-- A call site `LogPrintf("x")` in one file. -/
def nodeSameFmtA : CNode :=
  .mk "MACRO_INSTANTIATION" "LogPrintf"
    [⟨"LogPrintf"⟩, ⟨"("⟩, ⟨"\"x\""⟩, ⟨")"⟩]
    ⟨some "/root/proj/src/a.cpp", 1, 1⟩ []

/-- A call site `LogInfo("x")` with the same format string in another
file and position. -/
def nodeSameFmtB : CNode :=
  .mk "MACRO_INSTANTIATION" "LogInfo"
    [⟨"LogInfo"⟩, ⟨"("⟩, ⟨"\"x\""⟩, ⟨")"⟩]
    ⟨some "/root/proj/src/b.cpp", 99, 3⟩ []

/-- The LogMessage the program builds for `nodeSameFmtA`. -/
def msgSameFmtA : LogMessage :=
  { fmt := "x", regex := "x", regex_types := [],
    file := some "src/a.cpp", line := 1, column := 1,
    macroName := "LogPrintf", category := none }

/-- The LogMessage the program builds for `nodeSameFmtB`. -/
def msgSameFmtB : LogMessage :=
  { fmt := "x", regex := "x", regex_types := [],
    file := some "src/b.cpp", line := 99, column := 3,
    macroName := "LogInfo", category := none }

/-! ## Helper lemmas -/

/-- `"".join` of a single spelling is that spelling. -/
theorem arg_str_singleton (s : String) : arg_str [⟨s⟩] = s := by
  simp [arg_str]

/-- Inversion of a successful `process_log`: how each field of the
returned LogMessage is computed. -/
theorem process_log_ok_inv (node : CNode) (root : String) (m : LogMessage)
    (hok : process_log node root = .ok m) :
    ∃ args, get_macro_args node.spelling node.toks = some args ∧
      m.macroName = node.spelling ∧
      m.regex = (fmt_to_regex m.fmt).1 ∧
      m.regex_types = (fmt_to_regex m.fmt).2.map kindName ∧
      m.line = node.loc.line ∧ m.column = node.loc.column ∧
      (∃ f rel, node.loc.file = some f ∧ relative_to f root = some rel ∧
        m.file = some rel) ∧
      ((node.spelling = "LogDebug" ∨ node.spelling = "LogTrace") →
        ∃ a0 a1, args[0]? = some a0 ∧ args[1]? = some a1 ∧
          m.category = some (arg_str a0) ∧
          m.fmt = extract_literal (arg_str a1)) ∧
      (¬(node.spelling = "LogDebug" ∨ node.spelling = "LogTrace") →
        m.category = none ∧ ∃ a0, args[0]? = some a0 ∧
          m.fmt = extract_literal (arg_str a0)) := by
  cases hg : get_macro_args node.spelling node.toks with
  | none => simp [process_log, hg] at hok
  | some args =>
    refine ⟨args, rfl, ?_⟩
    by_cases hcat : node.spelling = "LogDebug" ∨ node.spelling = "LogTrace"
    · cases h0 : args[0]? with
      | none => simp [process_log, hg, hcat, h0] at hok
      | some a0 =>
        cases h1 : args[1]? with
        | none => simp [process_log, hg, hcat, h0, h1] at hok
        | some a1 =>
          cases hf : node.loc.file with
          | none => simp [process_log, hg, hcat, h0, h1, hf] at hok
          | some fn =>
            cases hr : relative_to fn root with
            | none => simp [process_log, hg, hcat, h0, h1, hf, hr] at hok
            | some rel =>
              simp [process_log, hg, hcat, h0, h1, hf, hr] at hok
              subst hok
              refine ⟨rfl, rfl, rfl, rfl, rfl, ⟨fn, rel, rfl, hr, rfl⟩,
                ?_, ?_⟩
              · intro _
                exact ⟨a0, a1, rfl, rfl, rfl, rfl⟩
              · intro hn; exact absurd hcat hn
    · cases h0 : args[0]? with
      | none => simp [process_log, hg, hcat, h0] at hok
      | some a0 =>
        cases hf : node.loc.file with
        | none => simp [process_log, hg, hcat, h0, hf] at hok
        | some fn =>
          cases hr : relative_to fn root with
          | none => simp [process_log, hg, hcat, h0, hf, hr] at hok
          | some rel =>
            simp [process_log, hg, hcat, h0, hf, hr] at hok
            subst hok
            refine ⟨rfl, rfl, rfl, rfl, rfl, ⟨fn, rel, rfl, hr, rfl⟩,
              ?_, ?_⟩
            · intro h; exact absurd h hcat
            · intro _
              exact ⟨rfl, a0, rfl, rfl⟩

/-- If the token loop reaches a close parenthesis at depth zero, the
segmenting loop returns a list with at least the flushed final buffer. -/
theorem segLoop_ne_nil_of_closes :
    ∀ (rest : List Token) (args : List (List Token)) (cur : List Token)
      (depth : Nat), closesCall rest depth = true →
      segLoop rest args cur depth ≠ [] := by
  intro rest
  induction rest with
  | nil => intro args cur depth h; simp [closesCall] at h
  | cons tok ts ih =>
    intro args cur depth h
    by_cases h1 : tok.spelling = "("
    · rw [closesCall, if_pos h1] at h
      rw [segLoop, if_pos h1]
      exact ih args cur (depth + 1) h
    · by_cases h2 : tok.spelling = ")"
      · rcases Nat.eq_zero_or_pos depth with hd | hd
        · subst hd
          simp [segLoop, h1, h2]
        · have hd0 : depth ≠ 0 := Nat.pos_iff_ne_zero.mp hd
          rw [closesCall, if_neg h1, if_pos h2, if_neg hd0] at h
          rw [segLoop, if_neg h1, if_pos h2, if_neg hd0]
          exact ih args (cur ++ [tok]) (depth - 1) h
      · rw [closesCall, if_neg h1, if_neg h2] at h
        by_cases h3 : tok.spelling = "," ∧ depth = 0
        · rw [segLoop, if_neg h1, if_neg h2, if_pos h3]
          exact ih (args ++ [cur]) [] depth h
        · rw [segLoop, if_neg h1, if_neg h2, if_neg h3]
          exact ih args (cur ++ [tok]) depth h

/-! ## Claims -/

/-- Claim C1.  The claim says a call site whose format argument does not
reconstruct to a double-quoted string literal produces no LogMessage (it
is skipped), so every LogMessage's `fmt` is the unquoted contents of a
string literal.  The code violates this: the `else` branch at line 127
only prints the diagnostic and falls through, so `process_log` still
builds a LogMessage whose `fmt` is the raw non-literal text `foo`. -/
theorem claim_C1_nonliteral_format_still_produces_message :
    startswithQuote (arg_str [⟨"foo"⟩]) = false ∧
    process_log nodeNonLiteral "/root/proj" = .ok msgNonLiteral ∧
    msgNonLiteral.fmt = "foo" :=
  ⟨by decide, rfl, rfl⟩

/-- Claim C2.  Nested open-grouping delimiters only increment the depth
counter and are not appended to the current buffer, while their matching
close-grouping delimiters are appended after decrementing the depth;
consequently segmenting `NAME ( f(x) , "s" )` yields exactly 2 groups and
the first group's reconstructed text is `fx)`. -/
theorem claim_C2_nested_grouping_asymmetry :
    (∀ (rest : List Token) (args : List (List Token)) (cur : List Token)
      (depth : Nat) (tok : Token), tok.spelling = "(" →
      segLoop (tok :: rest) args cur depth =
        segLoop rest args cur (depth + 1)) ∧
    (∀ (rest : List Token) (args : List (List Token)) (cur : List Token)
      (depth : Nat) (tok : Token), tok.spelling = ")" →
      segLoop (tok :: rest) args cur (depth + 1) =
        segLoop rest args (cur ++ [tok]) depth) ∧
    get_macro_args "NAME"
      [⟨"NAME"⟩, ⟨"("⟩, ⟨"f"⟩, ⟨"("⟩, ⟨"x"⟩, ⟨")"⟩, ⟨","⟩, ⟨"\"s\""⟩,
       ⟨")"⟩] = some [[⟨"f"⟩, ⟨"x"⟩, ⟨")"⟩], [⟨"\"s\""⟩]] ∧
    arg_str [⟨"f"⟩, ⟨"x"⟩, ⟨")"⟩] = "fx)" := by
  refine ⟨?_, ?_, by decide, by decide⟩
  · intro rest args cur depth tok h
    simp [segLoop, h]
  · intro rest args cur depth tok h
    simp [segLoop, h]

/-- Witness for C2 at concrete inputs. -/
theorem claim_C2_nested_grouping_asymmetry_witness :
    segLoop [Token.mk "("] [] [] 0 = segLoop [] [] [] (0 + 1) ∧
    segLoop [Token.mk ")"] [] [] (0 + 1) =
      segLoop [] [] ([] ++ [Token.mk ")"]) 0 :=
  ⟨claim_C2_nested_grouping_asymmetry.1 [] [] [] 0 ⟨"("⟩ rfl,
   claim_C2_nested_grouping_asymmetry.2.1 [] [] [] 0 ⟨")"⟩ rfl⟩

/-- Claim C3.  When no depth-zero close parenthesis is reached the
segmenter does return an empty list, but the call site is then not
skipped: `process_log` subscripts the empty list (`args[idx]`), raising
an IndexError that propagates through the traversal (aborting the file's
processing) instead of skipping the site. -/
theorem claim_C3_malformed_call_empty_args_then_crash :
    get_macro_args "LogPrintf" [⟨"LogPrintf"⟩, ⟨"("⟩, ⟨"\"x\""⟩] =
      some [] ∧
    process_log nodeMalformed "/root/proj" = .error .indexError ∧
    visit_node nodeMalformed "/root/proj" = .error .indexError := by
  refine ⟨by decide, rfl, ?_⟩
  simp [visit_node, visit_children, nodeMalformed, pyStartswith, LOG_FUNCS]
  rfl

/-- Claim C4.  The claim says a call site with no resolvable file produces
`file = none` rather than failing.  The code violates this: with
`loc.file` equal to `None`, `loc.file.name` raises an AttributeError.
When the location is known, the stored path is relative to the project
root. -/
theorem claim_C4_missing_file_crashes_known_file_relative :
    process_log nodeNoFile "/root/proj" = .error .attributeError ∧
    process_log nodeWithFile "/root/proj" = .ok msgWithFile ∧
    msgWithFile.file = some "src/a.cpp" :=
  ⟨rfl, rfl, rfl⟩

/-- Claim C5.  For every LogMessage produced, `category` is present iff
the macro is LogDebug or LogTrace; for those macros the category is the
reconstructed text of argument group 0 and the format string comes from
index 1, otherwise the category is absent and the format string comes
from index 0. -/
theorem claim_C5_category_iff_category_bearing (node : CNode)
    (root : String) (m : LogMessage) (args : List (List Token))
    (hok : process_log node root = .ok m)
    (hargs : get_macro_args node.spelling node.toks = some args) :
    (m.category.isSome ↔
      (m.macroName = "LogDebug" ∨ m.macroName = "LogTrace")) ∧
    ((m.macroName = "LogDebug" ∨ m.macroName = "LogTrace") →
      ∃ a0 a1, args[0]? = some a0 ∧ args[1]? = some a1 ∧
        m.category = some (arg_str a0) ∧
        m.fmt = extract_literal (arg_str a1)) ∧
    (¬(m.macroName = "LogDebug" ∨ m.macroName = "LogTrace") →
      m.category = none ∧ ∃ a0, args[0]? = some a0 ∧
        m.fmt = extract_literal (arg_str a0)) := by
  obtain ⟨args', hg', hmac, _, _, _, _, _, hT, hF⟩ :=
    process_log_ok_inv node root m hok
  rw [hargs] at hg'
  have heq : args = args' := Option.some.inj hg'
  subst heq
  rw [hmac]
  refine ⟨?_, hT, hF⟩
  by_cases hcat : node.spelling = "LogDebug" ∨ node.spelling = "LogTrace"
  · obtain ⟨a0, a1, _, _, hc, _⟩ := hT hcat
    simp [hc, hcat]
  · obtain ⟨hc, _⟩ := hF hcat
    simp [hc, hcat]

/-- Witness for C5 at the concrete call site `LogDebug(NET, "x")`. -/
theorem claim_C5_category_iff_category_bearing_witness :
    (msgLogDebug.category.isSome ↔
      (msgLogDebug.macroName = "LogDebug" ∨
       msgLogDebug.macroName = "LogTrace")) ∧
    ((msgLogDebug.macroName = "LogDebug" ∨
      msgLogDebug.macroName = "LogTrace") →
      ∃ a0 a1, argsLogDebug[0]? = some a0 ∧ argsLogDebug[1]? = some a1 ∧
        msgLogDebug.category = some (arg_str a0) ∧
        msgLogDebug.fmt = extract_literal (arg_str a1)) ∧
    (¬(msgLogDebug.macroName = "LogDebug" ∨
       msgLogDebug.macroName = "LogTrace") →
      msgLogDebug.category = none ∧ ∃ a0, argsLogDebug[0]? = some a0 ∧
        msgLogDebug.fmt = extract_literal (arg_str a0)) :=
  claim_C5_category_iff_category_bearing nodeLogDebug "/root/proj"
    msgLogDebug argsLogDebug rfl rfl

/-- Claim C6.  Segmenting a well-formed call `NAME ( a , b , c )` with
three comma-separated single-token arguments and no nested grouping
yields exactly 3 argument groups whose reconstructed texts are `a`, `b`,
`c` in order. -/
theorem claim_C6_three_args_segmentation (name a b c : String)
    (ha : a ≠ "(" ∧ a ≠ ")" ∧ a ≠ ",")
    (hb : b ≠ "(" ∧ b ≠ ")" ∧ b ≠ ",")
    (hc : c ≠ "(" ∧ c ≠ ")" ∧ c ≠ ",") :
    get_macro_args name
      [⟨name⟩, ⟨"("⟩, ⟨a⟩, ⟨","⟩, ⟨b⟩, ⟨","⟩, ⟨c⟩, ⟨")"⟩] =
      some [[⟨a⟩], [⟨b⟩], [⟨c⟩]] ∧
    arg_str [⟨a⟩] = a ∧ arg_str [⟨b⟩] = b ∧ arg_str [⟨c⟩] = c := by
  refine ⟨?_, arg_str_singleton a, arg_str_singleton b, arg_str_singleton c⟩
  simp [get_macro_args, segLoop, ha.1, ha.2.1, ha.2.2, hb.1, hb.2.1,
    hb.2.2, hc.1, hc.2.1, hc.2.2]

/-- Witness for C6 at the concrete arguments `a`, `b`, `c`. -/
theorem claim_C6_three_args_segmentation_witness :
    get_macro_args "NAME"
      [⟨"NAME"⟩, ⟨"("⟩, ⟨"a"⟩, ⟨","⟩, ⟨"b"⟩, ⟨","⟩, ⟨"c"⟩, ⟨")"⟩] =
      some [[⟨"a"⟩], [⟨"b"⟩], [⟨"c"⟩]] ∧
    arg_str [⟨"a"⟩] = "a" ∧ arg_str [⟨"b"⟩] = "b" ∧
    arg_str [⟨"c"⟩] = "c" :=
  claim_C6_three_args_segmentation "NAME" "a" "b" "c"
    (by decide) (by decide) (by decide)

/-- Claim C7.  Literal extraction round-trips: for a string `s` with no
double-quote characters, extracting from the reconstructed token text of
the quoted literal `"s"` returns exactly `s`. -/
theorem claim_C7_literal_roundtrip (s : String)
    (_hq : ∀ c ∈ s.data, c ≠ '"') :
    extract_literal ("\"" ++ s ++ "\"") = s := by
  have hdata : ("\"" ++ s ++ "\"").data = ('"' :: s.data) ++ ['"'] := by
    simp [String.data_append]
  have h1 : startswithQuote ("\"" ++ s ++ "\"") = true := by
    simp [startswithQuote, hdata]
  have h2 : endswithQuote ("\"" ++ s ++ "\"") = true := by
    rw [endswithQuote, hdata]
    rw [List.cons_append, ← List.cons_append, List.getLast?_concat]
    rfl
  have h3 : pyStrip1m1 ("\"" ++ s ++ "\"") = s := by
    simp [pyStrip1m1, hdata]
  simp [extract_literal, h1, h2, h3]

/-- Witness for C7 at `s = "abc"`. -/
theorem claim_C7_literal_roundtrip_witness :
    extract_literal ("\"" ++ "abc" ++ "\"") = "abc" :=
  claim_C7_literal_roundtrip "abc" (by decide)

/-- Claim C8.  A node whose source file does not lie under the project
root is pruned before descending into its children: the traversal returns
no LogMessage from it (even when its spelling matches a recognized macro
name). -/
theorem claim_C8_outside_root_pruned (node : CNode) (root f : String)
    (hf : node.loc.file = some f) (hout : pyStartswith f root = false) :
    visit_node node root = .ok [] := by
  obtain ⟨k, sp, toks, loc, ch⟩ := node
  simp only [CNode.loc] at hf
  simp [visit_node, hf, hout]

/-- Witness for C8 at a call site in a system header. -/
theorem claim_C8_outside_root_pruned_witness :
    visit_node nodeOutsideRoot "/root/proj" = .ok [] :=
  claim_C8_outside_root_pruned nodeOutsideRoot "/root/proj"
    "/usr/include/sys.h" rfl (by decide)

/-- Claim C9.  The compiled pattern and the list of field-kind names of a
LogMessage are a function of the format string alone: any two successful
call sites (whatever their node or root) with the same `fmt` get the same
`regex` and `regex_types`. -/
theorem claim_C9_pattern_deterministic_in_fmt (n1 n2 : CNode)
    (r1 r2 : String) (m1 m2 : LogMessage)
    (h1 : process_log n1 r1 = .ok m1) (h2 : process_log n2 r2 = .ok m2)
    (hfmt : m1.fmt = m2.fmt) :
    m1.regex = m2.regex ∧ m1.regex_types = m2.regex_types := by
  obtain ⟨_, _, _, hrx1, hrt1, _⟩ := process_log_ok_inv n1 r1 m1 h1
  obtain ⟨_, _, _, hrx2, hrt2, _⟩ := process_log_ok_inv n2 r2 m2 h2
  rw [hrx1, hrt1, hrx2, hrt2, hfmt]
  exact ⟨rfl, rfl⟩

/-- Witness for C9: `LogPrintf("x")` and `LogInfo("x")` at different
locations get the same pattern and field kinds. -/
theorem claim_C9_pattern_deterministic_in_fmt_witness :
    msgSameFmtA.regex = msgSameFmtB.regex ∧
    msgSameFmtA.regex_types = msgSameFmtB.regex_types :=
  claim_C9_pattern_deterministic_in_fmt nodeSameFmtA nodeSameFmtB
    "/root/proj" "/root/proj" msgSameFmtA msgSameFmtB rfl rfl rfl

/-- Claim C10.  Whenever the call is terminated by a depth-zero close
parenthesis, the segmenter flushes the in-flight buffer as a final group
and so returns at least one group; `NAME ( )` yields exactly one empty
group, and a trailing separator yields an additional empty final
group. -/
theorem claim_C10_terminated_call_nonempty_groups :
    (∀ (name : String) (rest : List Token) (l : List (List Token)),
      closesCall rest 0 = true →
      get_macro_args name (⟨name⟩ :: ⟨"("⟩ :: rest) = some l →
      l ≠ []) ∧
    get_macro_args "NAME" [⟨"NAME"⟩, ⟨"("⟩, ⟨")"⟩] = some [[]] ∧
    get_macro_args "NAME" [⟨"NAME"⟩, ⟨"("⟩, ⟨"a"⟩, ⟨","⟩, ⟨")"⟩] =
      some [[⟨"a"⟩], []] := by
  refine ⟨?_, by decide, by decide⟩
  intro name rest l hcl hg
  simp [get_macro_args] at hg
  exact hg ▸ segLoop_ne_nil_of_closes rest [] [] 0 hcl

/-- Witness for C10 at the argumentless call `NAME ( )`. -/
theorem claim_C10_terminated_call_nonempty_groups_witness :
    ([[]] : List (List Token)) ≠ [] :=
  claim_C10_terminated_call_nonempty_groups.1 "NAME" [⟨")"⟩] [[]]
    (by decide) (by decide)
